import Mathlib

/-!
Verification of the token program's instruction dispatcher, the
`GetAccountDataSize` handler and the batch sub-instruction executor.

The development shallowly embeds the Rust sources:

* `process_instruction` / `process_remaining_instruction` — the two-tier
  discriminator dispatch of `src/program/src/entrypoint.rs`, translated
  arm by arm.  The individual instruction handlers are *not* part of the
  excerpted sources, so the dispatcher is parameterised by a `Handlers`
  record holding one function per handler, with the exact argument shapes
  of the Rust call sites (some handlers receive the instruction payload,
  some only the accounts, and `process_initialize_mint` an extra flag).
* `process_get_account_data_size` — translated from
  `src/program/src/processor/get_account_data_size.rs`.  Its collaborators
  (`check_account_owner`, the typed `load` of a `Mint`, the record sizes)
  are modelled from the specification's collaborator contracts.
* `process_batch` — the batch executor is not under the excerpted sources;
  it is modelled from the specification of the `BatchExecutor` (a packed
  stream of `[account_count, data_len, data]` records executed in order
  against the regular handler set, rejecting nested batches and malformed
  streams).

Rust's in-place account mutation is made explicit: every handler consumes
the account list and produces an `Outcome` holding the (possibly updated)
account list, the return data set during the call (if any) and the error
(if any).
-/

/-- A byte, as Rust's `u8`. -/
abbrev Byte := Fin 256

/-- A byte buffer, as a Rust `&[u8]`. -/
abbrev Bytes := List Byte

/-- A public key (`Pubkey`, 32 bytes in Rust).  Only identity of keys
matters to the properties proved here, so keys are kept opaque as naturals. -/
abbrev Pubkey := Nat

/-- One entry of the instruction's account list (`pinocchio::AccountInfo`):
the key, the lamport balance, the account data bytes, the owning program and
the signer/writable flags. -/
structure AccountInfo where
  key : Pubkey
  lamports : Nat
  data : Bytes
  owner : Pubkey
  is_signer : Bool
  is_writable : Bool
deriving DecidableEq

/-- The token-specific error codes (`token_interface::error::TokenError`);
only the variant used by the excerpted sources is distinguished. -/
inductive TokenError where
  | invalidMint
deriving DecidableEq

/-- The runtime error type (`pinocchio::program_error::ProgramError`),
restricted to the variants reachable from the embedded code.  A
`TokenError` propagates as a `custom` error. -/
inductive ProgramError where
  | invalidInstructionData
  | notEnoughAccountKeys
  | incorrectProgramId
  | invalidAccountData
  | custom (e : TokenError)
deriving DecidableEq

deriving instance DecidableEq for Except

/-- The observable result of one handler or dispatcher call: the account
list after the call (Rust mutates the buffers in place; the embedding
threads them explicitly), the return data set via `set_return_data` during
the call (`none` when never set), and the error (`none` means `Ok(())`). -/
structure Outcome where
  accounts : List AccountInfo
  return_data : Option Bytes
  err : Option ProgramError
deriving DecidableEq

/-- Modelled from the spec: this program's own id (`TOKEN_PROGRAM_ID`).
The properties proved here depend only on equality with it, so its value
is arbitrary. -/
def TOKEN_PROGRAM_ID : Pubkey := 1

/-- Modelled from the spec: the fixed byte size of the `Mint` record
("fixed-layout records"; the standard token mint layout:
36-byte optional mint authority, 8-byte supply, 1-byte decimals,
1-byte initialization tag, 36-byte optional freeze authority). -/
def Mint.LEN : Nat := 82

/-- Modelled from the spec: the fixed byte size of the token `Account`
record (`Account::LEN`, the standard 165-byte token-holding layout). -/
def Account.LEN : Nat := 165

/-- Little-endian encoding of a machine word, as Rust's
`usize::to_le_bytes` produces on the 64-bit target. -/
def u64_le_bytes (n : Nat) : Bytes :=
  (List.range 8).map fun i => ⟨n / 256 ^ i % 256, Nat.mod_lt _ (by omega)⟩

/-- Modelled from the spec: the `TypedStateStore` ownership check that a
buffer's declaring owner equals this program (`check_account_owner`, which
is not under the excerpted sources; its callers are).  A mismatch is the
"bad account owner" failure, reported as `IncorrectProgramId`. -/
def check_account_owner (account_info : AccountInfo) : Except ProgramError Unit :=
  if account_info.owner = TOKEN_PROGRAM_ID then .ok () else .error .incorrectProgramId

/-- Modelled from the spec: the typed account-data view for `Mint`,
`load<Mint>(bytes) -> &Mint`, which "fails with InvalidAccountData on
size/alignment mismatch or uninitialized state".  The initialization tag
of the mint layout is the byte at offset 45.  Only validity matters to the
properties proved here, so the loaded record itself is not materialised. -/
def load_mint (bytes : Bytes) : Except ProgramError Unit :=
  if bytes.length = Mint.LEN then
    if bytes.getD 45 0 = 1 then .ok () else .error .invalidAccountData
  else .error .invalidAccountData

/-- `process_get_account_data_size` from
`src/program/src/processor/get_account_data_size.rs`: require at least one
account, check the first is owned by this program, load it as an
initialized `Mint` (mapping any load failure to `TokenError::InvalidMint`),
then set the return data to `Account::LEN.to_le_bytes()` and succeed.  No
account is ever written. -/
def process_get_account_data_size (accounts : List AccountInfo) : Outcome :=
  match accounts with
  | [] => ⟨accounts, none, some .notEnoughAccountKeys⟩
  | mint_info :: _remaining =>
    match check_account_owner mint_info with
    | .error e => ⟨accounts, none, some e⟩
    | .ok _ =>
      match load_mint mint_info.data with
      | .error _ => ⟨accounts, none, some (.custom .invalidMint)⟩
      | .ok _ => ⟨accounts, some (u64_le_bytes Account.LEN), none⟩

/-- The instruction handler set the dispatcher routes to.  The handler
bodies are outside the excerpted sources, so they are abstract here; each
field carries the exact argument shape of its Rust call site in
`entrypoint.rs` (accounts and remaining instruction data, except for the
handlers whose Rust signature takes only the accounts, and
`process_initialize_mint`, which also receives a literal `true`). -/
structure Handlers where
  process_initialize_mint : List AccountInfo → Bytes → Bool → Outcome
  process_initialize_account : List AccountInfo → Outcome
  process_initialize_multisig : List AccountInfo → Bytes → Outcome
  process_transfer : List AccountInfo → Bytes → Outcome
  process_approve : List AccountInfo → Bytes → Outcome
  process_revoke : List AccountInfo → Bytes → Outcome
  process_set_authority : List AccountInfo → Bytes → Outcome
  process_mint_to : List AccountInfo → Bytes → Outcome
  process_burn : List AccountInfo → Bytes → Outcome
  process_close_account : List AccountInfo → Outcome
  process_freeze_account : List AccountInfo → Outcome
  process_thaw_account : List AccountInfo → Outcome
  process_transfer_checked : List AccountInfo → Bytes → Outcome
  process_approve_checked : List AccountInfo → Bytes → Outcome
  process_mint_to_checked : List AccountInfo → Bytes → Outcome
  process_burn_checked : List AccountInfo → Bytes → Outcome
  process_initialize_account2 : List AccountInfo → Bytes → Outcome
  process_sync_native : List AccountInfo → Outcome
  process_initialize_account3 : List AccountInfo → Bytes → Outcome
  process_initialize_multisig2 : List AccountInfo → Bytes → Outcome
  process_initialize_mint2 : List AccountInfo → Bytes → Outcome
  process_get_account_data_size : List AccountInfo → Outcome
  process_initialize_immutable_owner : List AccountInfo → Outcome
  process_amount_to_ui_amount : List AccountInfo → Bytes → Outcome
  process_ui_amount_to_amount : List AccountInfo → Bytes → Outcome

/-- The regular (non-batch) handler selected by a discriminator byte, with
the arguments the dispatcher passes it; an unrecognized discriminator is
`InvalidInstructionData` with the accounts untouched.  This is the handler
set shared by the top-level dispatch and the batch executor. -/
def dispatch_handler (H : Handlers) (d : Byte) (accounts : List AccountInfo)
    (payload : Bytes) : Outcome :=
  if d.val = 0 then H.process_initialize_mint accounts payload true
  else if d.val = 1 then H.process_initialize_account accounts
  else if d.val = 2 then H.process_initialize_multisig accounts payload
  else if d.val = 3 then H.process_transfer accounts payload
  else if d.val = 4 then H.process_approve accounts payload
  else if d.val = 5 then H.process_revoke accounts payload
  else if d.val = 6 then H.process_set_authority accounts payload
  else if d.val = 7 then H.process_mint_to accounts payload
  else if d.val = 8 then H.process_burn accounts payload
  else if d.val = 9 then H.process_close_account accounts
  else if d.val = 10 then H.process_freeze_account accounts
  else if d.val = 11 then H.process_thaw_account accounts
  else if d.val = 12 then H.process_transfer_checked accounts payload
  else if d.val = 13 then H.process_approve_checked accounts payload
  else if d.val = 14 then H.process_mint_to_checked accounts payload
  else if d.val = 15 then H.process_burn_checked accounts payload
  else if d.val = 16 then H.process_initialize_account2 accounts payload
  else if d.val = 17 then H.process_sync_native accounts
  else if d.val = 18 then H.process_initialize_account3 accounts payload
  else if d.val = 19 then H.process_initialize_multisig2 accounts payload
  else if d.val = 20 then H.process_initialize_mint2 accounts payload
  else if d.val = 21 then H.process_get_account_data_size accounts
  else if d.val = 22 then H.process_initialize_immutable_owner accounts
  else if d.val = 23 then H.process_amount_to_ui_amount accounts payload
  else if d.val = 24 then H.process_ui_amount_to_amount accounts payload
  else ⟨accounts, none, some .invalidInstructionData⟩

/-- Return-data threading across batch steps: `set_return_data` overwrites,
so data set by the current sub-instruction supersedes earlier data. -/
def merge_return_data (new_data prev : Option Bytes) : Option Bytes :=
  match new_data with
  | some r => some r
  | none => prev

/-- Modelled from the spec: the loop of the `BatchExecutor` (`process_batch`
is not under the excerpted sources).  The payload is iterated as records
`[account_count: u8][data_len: u8][data: data_len bytes]` until exhausted;
each record slices the next `account_count` accounts off the front of the
remaining account list and runs the regular handler selected by the first
byte of `data` on that slice and `data[1:]`.  A truncated header, a
declared `account_count`/`data_len` exceeding the remaining buffers, an
empty sub-instruction datum and a nested Batch discriminator are rejected
with `InvalidInstructionData`; a failing sub-instruction aborts the loop
with its error, the account mutations of the already executed
sub-instructions staying in the buffers (the host rolls them back, see
`observable_accounts`).  `fuel` bounds the recursion depth; one unit is
spent per record, so any fuel above the number of records — in particular
`payload.length + 1`, as every record occupies at least two payload
bytes — is enough and the `fuel = 0` case is unreachable from
`process_batch`. -/
def process_batch_go (H : Handlers) :
    Nat → List AccountInfo → Option Bytes → Bytes → Outcome
  | 0, accounts, rd, _ => ⟨accounts, rd, some .invalidInstructionData⟩
  | _ + 1, accounts, rd, [] => ⟨accounts, rd, none⟩
  | _ + 1, accounts, rd, [_] => ⟨accounts, rd, some .invalidInstructionData⟩
  | fuel + 1, accounts, rd, ac :: dl :: rest =>
    if rest.length < dl.val then ⟨accounts, rd, some .invalidInstructionData⟩
    else if accounts.length < ac.val then ⟨accounts, rd, some .invalidInstructionData⟩
    else
      match rest.take dl.val with
      | [] => ⟨accounts, rd, some .invalidInstructionData⟩
      | d :: sub_data =>
        if d.val = 255 then ⟨accounts, rd, some .invalidInstructionData⟩
        else
          let out := dispatch_handler H d (accounts.take ac.val) sub_data
          let rd2 := merge_return_data out.return_data rd
          match out.err with
          | some e => ⟨out.accounts ++ accounts.drop ac.val, rd2, some e⟩
          | none =>
            let tail := process_batch_go H fuel (accounts.drop ac.val) rd2 (rest.drop dl.val)
            ⟨out.accounts ++ tail.accounts, tail.return_data, tail.err⟩

/-- Modelled from the spec: the `BatchExecutor` entry point, with enough
fuel for every record of the payload. -/
def process_batch (H : Handlers) (accounts : List AccountInfo)
    (instruction_data : Bytes) : Outcome :=
  process_batch_go H (instruction_data.length + 1) accounts none instruction_data

/-- `process_remaining_instruction` from `src/program/src/entrypoint.rs`:
the second dispatch tier, handling every discriminator the first tier does
not, and rejecting the rest with `InvalidInstructionData`. -/
def process_remaining_instruction (H : Handlers) (accounts : List AccountInfo)
    (instruction_data : Bytes) (discriminator : Byte) : Outcome :=
  if discriminator.val = 1 then H.process_initialize_account accounts
  else if discriminator.val = 2 then H.process_initialize_multisig accounts instruction_data
  else if discriminator.val = 4 then H.process_approve accounts instruction_data
  else if discriminator.val = 5 then H.process_revoke accounts instruction_data
  else if discriminator.val = 6 then H.process_set_authority accounts instruction_data
  else if discriminator.val = 8 then H.process_burn accounts instruction_data
  else if discriminator.val = 10 then H.process_freeze_account accounts
  else if discriminator.val = 11 then H.process_thaw_account accounts
  else if discriminator.val = 12 then H.process_transfer_checked accounts instruction_data
  else if discriminator.val = 13 then H.process_approve_checked accounts instruction_data
  else if discriminator.val = 14 then H.process_mint_to_checked accounts instruction_data
  else if discriminator.val = 15 then H.process_burn_checked accounts instruction_data
  else if discriminator.val = 16 then H.process_initialize_account2 accounts instruction_data
  else if discriminator.val = 17 then H.process_sync_native accounts
  else if discriminator.val = 19 then H.process_initialize_multisig2 accounts instruction_data
  else if discriminator.val = 21 then H.process_get_account_data_size accounts
  else if discriminator.val = 22 then H.process_initialize_immutable_owner accounts
  else if discriminator.val = 23 then H.process_amount_to_ui_amount accounts instruction_data
  else if discriminator.val = 24 then H.process_ui_amount_to_amount accounts instruction_data
  else ⟨accounts, none, some .invalidInstructionData⟩

/-- `process_instruction` from `src/program/src/entrypoint.rs`: split off
the discriminator byte (empty data is `InvalidInstructionData`), handle the
common discriminators and the batch in the first tier, and fall through to
`process_remaining_instruction` otherwise. -/
def process_instruction (H : Handlers) (accounts : List AccountInfo)
    (instruction_data : Bytes) : Outcome :=
  match instruction_data with
  | [] => ⟨accounts, none, some .invalidInstructionData⟩
  | discriminator :: instruction_data =>
    if discriminator.val = 0 then H.process_initialize_mint accounts instruction_data true
    else if discriminator.val = 3 then H.process_transfer accounts instruction_data
    else if discriminator.val = 7 then H.process_mint_to accounts instruction_data
    else if discriminator.val = 9 then H.process_close_account accounts
    else if discriminator.val = 18 then H.process_initialize_account3 accounts instruction_data
    else if discriminator.val = 20 then H.process_initialize_mint2 accounts instruction_data
    else if discriminator.val = 255 then process_batch H accounts instruction_data
    else process_remaining_instruction H accounts instruction_data discriminator

/-- The flat discriminator-to-handler assignment exactly as the
specification lists it (0 InitializeMint, 1 InitializeAccount,
2 InitializeMultisig, 3 Transfer, 4 Approve, 5 Revoke, 6 SetAuthority,
7 MintTo, 8 Burn, 9 CloseAccount, 10 FreezeAccount, 11 ThawAccount,
12 TransferChecked, 13 ApproveChecked, 14 MintToChecked, 15 BurnChecked,
16 InitializeAccount2, 17 SyncNative, 18 InitializeAccount3,
19 InitializeMultisig2, 20 InitializeMint2, 21 GetAccountDataSize,
22 InitializeImmutableOwner, 23 AmountToUiAmount, 24 UiAmountToAmount,
255 Batch), each handler receiving the bytes after the discriminator as
its payload.  This is the specification-side reference the source
dispatcher is compared against. -/
def spec_dispatch (H : Handlers) (d : Byte) (accounts : List AccountInfo)
    (payload : Bytes) : Outcome :=
  if d.val = 0 then H.process_initialize_mint accounts payload true
  else if d.val = 1 then H.process_initialize_account accounts
  else if d.val = 2 then H.process_initialize_multisig accounts payload
  else if d.val = 3 then H.process_transfer accounts payload
  else if d.val = 4 then H.process_approve accounts payload
  else if d.val = 5 then H.process_revoke accounts payload
  else if d.val = 6 then H.process_set_authority accounts payload
  else if d.val = 7 then H.process_mint_to accounts payload
  else if d.val = 8 then H.process_burn accounts payload
  else if d.val = 9 then H.process_close_account accounts
  else if d.val = 10 then H.process_freeze_account accounts
  else if d.val = 11 then H.process_thaw_account accounts
  else if d.val = 12 then H.process_transfer_checked accounts payload
  else if d.val = 13 then H.process_approve_checked accounts payload
  else if d.val = 14 then H.process_mint_to_checked accounts payload
  else if d.val = 15 then H.process_burn_checked accounts payload
  else if d.val = 16 then H.process_initialize_account2 accounts payload
  else if d.val = 17 then H.process_sync_native accounts
  else if d.val = 18 then H.process_initialize_account3 accounts payload
  else if d.val = 19 then H.process_initialize_multisig2 accounts payload
  else if d.val = 20 then H.process_initialize_mint2 accounts payload
  else if d.val = 21 then H.process_get_account_data_size accounts
  else if d.val = 22 then H.process_initialize_immutable_owner accounts
  else if d.val = 23 then H.process_amount_to_ui_amount accounts payload
  else if d.val = 24 then H.process_ui_amount_to_amount accounts payload
  else if d.val = 255 then process_batch H accounts payload
  else ⟨accounts, none, some .invalidInstructionData⟩

/-- The single-tier reformulation of the dispatcher: one flat lookup keyed
by the discriminator, obtained by merging the two `match` tiers of
`entrypoint.rs` into `dispatch_handler` plus the batch arm.  `process_instruction`
is proved extensionally equal to it. -/
def process_instruction_flat (H : Handlers) (accounts : List AccountInfo)
    (instruction_data : Bytes) : Outcome :=
  match instruction_data with
  | [] => ⟨accounts, none, some .invalidInstructionData⟩
  | discriminator :: instruction_data =>
    if discriminator.val = 255 then process_batch H accounts instruction_data
    else dispatch_handler H discriminator accounts instruction_data

/-- Modelled from the spec: the host runtime's whole-invocation atomicity.
An invocation that returns an error has every account mutation rolled back,
so the observable account state is the input state; a successful invocation
leaves the mutated state. -/
def observable_accounts (H : Handlers) (accounts : List AccountInfo)
    (instruction_data : Bytes) : List AccountInfo :=
  let out := process_instruction H accounts instruction_data
  match out.err with
  | some _ => accounts
  | none => out.accounts

/-- Scans a batch payload exactly as `process_batch_go` iterates it and
decides whether the executor, with every earlier record executing
successfully, reaches an offending record: a truncated header, a declared
`data_len` or `account_count` exceeding the remaining bytes or accounts, an
empty sub-instruction datum, or a nested Batch discriminator.  A record
whose sub-instruction fails stops the scan with `false` (the executor
aborts there with that error instead). -/
def batch_hits_offense (H : Handlers) :
    Nat → List AccountInfo → Bytes → Bool
  | 0, _, _ => false
  | _ + 1, _, [] => false
  | _ + 1, _, [_] => true
  | fuel + 1, accounts, ac :: dl :: rest =>
    if rest.length < dl.val then true
    else if accounts.length < ac.val then true
    else
      match rest.take dl.val with
      | [] => true
      | d :: sub_data =>
        if d.val = 255 then true
        else
          let out := dispatch_handler H d (accounts.take ac.val) sub_data
          match out.err with
          | some _ => false
          | none => batch_hits_offense H fuel (accounts.drop ac.val) (rest.drop dl.val)

/-- A concrete handler set used to instantiate the dispatch theorems: the
`GetAccountDataSize` handler is the one translated from the sources, the
handlers outside the excerpted sources are inert (they leave the accounts
unchanged and succeed). -/
def model_handlers : Handlers where
  process_initialize_mint := fun accounts _ _ => ⟨accounts, none, none⟩
  process_initialize_account := fun accounts => ⟨accounts, none, none⟩
  process_initialize_multisig := fun accounts _ => ⟨accounts, none, none⟩
  process_transfer := fun accounts _ => ⟨accounts, none, none⟩
  process_approve := fun accounts _ => ⟨accounts, none, none⟩
  process_revoke := fun accounts _ => ⟨accounts, none, none⟩
  process_set_authority := fun accounts _ => ⟨accounts, none, none⟩
  process_mint_to := fun accounts _ => ⟨accounts, none, none⟩
  process_burn := fun accounts _ => ⟨accounts, none, none⟩
  process_close_account := fun accounts => ⟨accounts, none, none⟩
  process_freeze_account := fun accounts => ⟨accounts, none, none⟩
  process_thaw_account := fun accounts => ⟨accounts, none, none⟩
  process_transfer_checked := fun accounts _ => ⟨accounts, none, none⟩
  process_approve_checked := fun accounts _ => ⟨accounts, none, none⟩
  process_mint_to_checked := fun accounts _ => ⟨accounts, none, none⟩
  process_burn_checked := fun accounts _ => ⟨accounts, none, none⟩
  process_initialize_account2 := fun accounts _ => ⟨accounts, none, none⟩
  process_sync_native := fun accounts => ⟨accounts, none, none⟩
  process_initialize_account3 := fun accounts _ => ⟨accounts, none, none⟩
  process_initialize_multisig2 := fun accounts _ => ⟨accounts, none, none⟩
  process_initialize_mint2 := fun accounts _ => ⟨accounts, none, none⟩
  process_get_account_data_size := process_get_account_data_size
  process_initialize_immutable_owner := fun accounts => ⟨accounts, none, none⟩
  process_amount_to_ui_amount := fun accounts _ => ⟨accounts, none, none⟩
  process_ui_amount_to_amount := fun accounts _ => ⟨accounts, none, none⟩

/-- The byte image of a valid initialized `Mint` record: 82 bytes with the
initialization tag (offset 45) set. -/
def valid_mint_bytes : Bytes :=
  List.replicate 45 0 ++ [1] ++ List.replicate 36 0

/-- A program-owned account holding a valid initialized mint. -/
def valid_mint_account : AccountInfo :=
  ⟨7, 1000, valid_mint_bytes, TOKEN_PROGRAM_ID, false, false⟩

/-- A program-owned account whose data is not a valid mint record. -/
def garbage_mint_account : AccountInfo :=
  ⟨8, 1000, [3, 1, 4], TOKEN_PROGRAM_ID, false, false⟩

/-- An account owned by another program, with data that is not a valid
mint record either. -/
def foreign_account : AccountInfo :=
  ⟨9, 1000, [], 42, false, false⟩

/-- Claim C2: for every account list whose first account is owned by this
program and whose data loads as an initialized `Mint` record,
`process_get_account_data_size` succeeds and sets the return data to the
fixed token `Account` record size (`Account::LEN`) in little-endian bytes,
leaving the accounts untouched. -/
theorem get_account_data_size_valid_mint (mint_info : AccountInfo)
    (rest : List AccountInfo) (howner : mint_info.owner = TOKEN_PROGRAM_ID)
    (hload : load_mint mint_info.data = .ok ()) :
    process_get_account_data_size (mint_info :: rest) =
      ⟨mint_info :: rest, some (u64_le_bytes Account.LEN), none⟩ := by
  simp [process_get_account_data_size, check_account_owner, howner, hload]

/-- Witness for C2 at a concrete program-owned, initialized mint. -/
theorem get_account_data_size_valid_mint_witness :
    valid_mint_account.owner = TOKEN_PROGRAM_ID ∧
    load_mint valid_mint_account.data = .ok () ∧
    process_get_account_data_size [valid_mint_account] =
      ⟨[valid_mint_account], some (u64_le_bytes Account.LEN), none⟩ :=
  ⟨by decide, by decide,
    get_account_data_size_valid_mint valid_mint_account [] (by decide) (by decide)⟩

/-- Counterexample to claim C3 as stated: a first account that is not owned
by this program (and whose bytes are no valid mint either) does not load as
a valid initialized Mint, yet `process_get_account_data_size` fails with
`IncorrectProgramId`, not with the `InvalidMint` error. -/
theorem get_account_data_size_wrong_owner_cex :
    process_get_account_data_size [foreign_account] =
      ⟨[foreign_account], none, some .incorrectProgramId⟩ ∧
    ProgramError.incorrectProgramId ≠ ProgramError.custom .invalidMint :=
  ⟨by decide, by decide⟩

/-- Claim C3 as amended: when the first account is owned by this program
but its data fails to load as a valid initialized Mint, the failure is the
`InvalidMint` error (and only that error); when the first account is not
owned by this program, the ownership check fails first with
`IncorrectProgramId`. -/
theorem get_account_data_size_invalid_mint_amended (mint_info : AccountInfo)
    (rest : List AccountInfo) :
    (mint_info.owner = TOKEN_PROGRAM_ID →
      ∀ e, load_mint mint_info.data = .error e →
        process_get_account_data_size (mint_info :: rest) =
          ⟨mint_info :: rest, none, some (.custom .invalidMint)⟩) ∧
    (mint_info.owner ≠ TOKEN_PROGRAM_ID →
      process_get_account_data_size (mint_info :: rest) =
        ⟨mint_info :: rest, none, some .incorrectProgramId⟩) := by
  constructor
  · intro howner e hload
    simp [process_get_account_data_size, check_account_owner, howner, hload]
  · intro howner
    simp [process_get_account_data_size, check_account_owner, howner]

/-- Witness for the amended C3 at a concrete program-owned account whose
bytes are not a valid mint record. -/
theorem get_account_data_size_invalid_mint_amended_witness :
    load_mint garbage_mint_account.data = .error .invalidAccountData ∧
    process_get_account_data_size [garbage_mint_account] =
      ⟨[garbage_mint_account], none, some (.custom .invalidMint)⟩ :=
  ⟨by decide,
    (get_account_data_size_invalid_mint_amended garbage_mint_account []).1
      (by decide) .invalidAccountData (by decide)⟩

/-- Claim C4: `process_get_account_data_size` never mutates any account —
on every input, success or failure, the account list (data and lamports
included) after the call is the input account list. -/
theorem get_account_data_size_no_mutation (accounts : List AccountInfo) :
    (process_get_account_data_size accounts).accounts = accounts := by
  cases accounts with
  | nil => rfl
  | cons a rest =>
    simp only [process_get_account_data_size]
    cases check_account_owner a with
    | error e => rfl
    | ok u =>
      cases load_mint a.data with
      | error e => rfl
      | ok u => rfl

/-- Claim C10: on the empty account list `process_get_account_data_size`
fails with `NotEnoughAccountKeys` — not with `InvalidMint` — before any
mint validation is attempted. -/
theorem get_account_data_size_empty_accounts :
    process_get_account_data_size [] = ⟨[], none, some .notEnoughAccountKeys⟩ ∧
    ProgramError.notEnoughAccountKeys ≠ ProgramError.custom .invalidMint :=
  ⟨rfl, by decide⟩

/-- Claim C1: for every handler set, account list and non-empty
instruction byte sequence, `process_instruction` treats the first byte as
the discriminator and routes to exactly the handler the specification
assigns to that discriminator, passing the bytes after the discriminator
as that handler's payload (`spec_dispatch` is the specification's flat
assignment). -/
theorem dispatch_routes_by_spec_table (H : Handlers)
    (accounts : List AccountInfo) (d : Byte) (payload : Bytes) :
    process_instruction H accounts (d :: payload) =
      spec_dispatch H d accounts payload := by
  obtain ⟨v, hv⟩ := d
  interval_cases v <;> rfl

/-- Claim C7: the two-tier dispatch (`process_instruction` matching the
common discriminators first, then `process_remaining_instruction` matching
the rest) is extensionally equal to the single flat lookup keyed by the
discriminator: both invoke the same handler with the same arguments and
return the same result on every input. -/
theorem two_tier_dispatch_eq_flat (H : Handlers)
    (accounts : List AccountInfo) (instruction_data : Bytes) :
    process_instruction H accounts instruction_data =
      process_instruction_flat H accounts instruction_data := by
  cases instruction_data with
  | nil => rfl
  | cons d payload =>
    obtain ⟨v, hv⟩ := d
    interval_cases v <;> rfl

/-- Claim C8: the instruction processor is deterministic — two runs of
`process_instruction` on equal account states and equal instruction bytes
return equal results and equal resulting account states (the embedding is
a pure function, so equal inputs give the one and only output). -/
theorem process_instruction_deterministic (H : Handlers)
    (accounts1 accounts2 : List AccountInfo) (data1 data2 : Bytes)
    (ha : accounts1 = accounts2) (hd : data1 = data2) :
    process_instruction H accounts1 data1 = process_instruction H accounts2 data2 := by
  subst ha
  subst hd
  rfl

/-- Witness for C8 at a concrete handler set and concrete equal inputs. -/
theorem process_instruction_deterministic_witness :
    process_instruction model_handlers [valid_mint_account] [21] =
      process_instruction model_handlers [valid_mint_account] [21] :=
  process_instruction_deterministic model_handlers [valid_mint_account]
    [valid_mint_account] [21] [21] rfl rfl

/-- Claim C9: `process_instruction` returns `InvalidInstructionData` with
every account unchanged whenever the instruction data is empty (no
discriminator byte) or the discriminator is none of the recognized values
0..24 and 255. -/
theorem unknown_discriminator_invalid_instruction_data (H : Handlers)
    (accounts : List AccountInfo) :
    process_instruction H accounts [] = ⟨accounts, none, some .invalidInstructionData⟩ ∧
    ∀ (d : Byte) (rest : Bytes), 24 < d.val → d.val ≠ 255 →
      process_instruction H accounts (d :: rest) =
        ⟨accounts, none, some .invalidInstructionData⟩ := by
  refine ⟨rfl, ?_⟩
  rintro ⟨v, hv⟩ rest h1 h2
  have h1v : 24 < v := h1
  have h2v : v ≠ 255 := h2
  interval_cases v <;> first | rfl | exact (h2v rfl).elim

/-- Witness for C9 at the smallest unrecognized discriminator. -/
theorem unknown_discriminator_invalid_instruction_data_witness :
    process_instruction model_handlers [valid_mint_account] [25] =
      ⟨[valid_mint_account], none, some .invalidInstructionData⟩ :=
  (unknown_discriminator_invalid_instruction_data model_handlers
    [valid_mint_account]).2 25 [] (by decide) (by decide)

/-- When the offense scan reaches a malformed record or a nested Batch
discriminator, the batch loop fails with `InvalidInstructionData`
(whatever return data was threaded so far). -/
theorem batch_go_offense (H : Handlers) :
    ∀ (fuel : Nat) (accounts : List AccountInfo) (payload : Bytes),
      batch_hits_offense H fuel accounts payload = true →
      ∀ rd, (process_batch_go H fuel accounts rd payload).err =
        some .invalidInstructionData := by
  intro fuel
  induction fuel with
  | zero =>
    intro accounts payload h rd
    simp [batch_hits_offense] at h
  | succ n ih =>
    intro accounts payload h rd
    cases payload with
    | nil => simp [batch_hits_offense] at h
    | cons ac tl =>
      cases tl with
      | nil => rfl
      | cons dl rest =>
        simp only [batch_hits_offense] at h
        simp only [process_batch_go]
        by_cases hc1 : rest.length < dl.val
        · simp [hc1]
        · simp only [if_neg hc1] at h ⊢
          by_cases hc2 : accounts.length < ac.val
          · simp [hc2]
          · simp only [if_neg hc2] at h ⊢
            cases htake : rest.take dl.val with
            | nil => simp [htake]
            | cons d sub_data =>
              simp only [htake] at h ⊢
              by_cases hd : d.val = 255
              · simp [hd]
              · simp only [if_neg hd] at h ⊢
                cases herr : (dispatch_handler H d (accounts.take ac.val) sub_data).err with
                | some e => simp [herr] at h
                | none =>
                  simp only [herr] at h ⊢
                  exact ih (accounts.drop ac.val) (rest.drop dl.val) h _

/-- Counterexample to claim C5 as stated: this batch stream contains a
sub-instruction whose first data byte is the Batch discriminator (its
second record is `[account_count 0][data_len 1][255]`), yet the invocation
does not fail with `InvalidInstructionData` — its first record runs
`GetAccountDataSize` on zero accounts, which fails first, and the batch
aborts with that sub-instruction's `NotEnoughAccountKeys`. -/
theorem batch_nested_after_failure_cex :
    (process_instruction model_handlers [] [255, 0, 1, 21, 0, 1, 255]).err =
      some .notEnoughAccountKeys ∧
    some ProgramError.notEnoughAccountKeys ≠ some ProgramError.invalidInstructionData :=
  ⟨by decide, by decide⟩

/-- Claim C5 as amended: a batch stream fails with
`InvalidInstructionData` whenever the executor — with every earlier
sub-instruction executing successfully — reaches a record that is
malformed (truncated header, declared `account_count` or `data_len`
exceeding the remaining accounts or bytes, or empty sub-instruction data)
or whose first data byte is the Batch discriminator 255
(`batch_hits_offense` is that reachability scan); an earlier failing
sub-instruction instead aborts the batch with its own error. -/
theorem batch_offense_invalid_instruction_data (H : Handlers)
    (accounts : List AccountInfo) (payload : Bytes)
    (h : batch_hits_offense H (payload.length + 1) accounts payload = true) :
    (process_batch H accounts payload).err = some .invalidInstructionData ∧
    (process_instruction H accounts ((255 : Byte) :: payload)).err =
      some .invalidInstructionData := by
  have hgo := batch_go_offense H (payload.length + 1) accounts payload h
  have hdisp : process_instruction H accounts ((255 : Byte) :: payload) =
      process_batch H accounts payload := rfl
  exact ⟨hgo none, by rw [hdisp]; exact hgo none⟩

/-- Witness for the amended C5: a one-record batch whose sub-instruction
data begins with the Batch discriminator, and a batch whose first record
declares more accounts than remain. -/
theorem batch_offense_invalid_instruction_data_witness :
    batch_hits_offense model_handlers 4 [] [0, 1, 255] = true ∧
    (process_batch model_handlers [] [0, 1, 255]).err = some .invalidInstructionData ∧
    (process_batch model_handlers [] [2, 1, 21]).err = some .invalidInstructionData :=
  ⟨by decide,
    (batch_offense_invalid_instruction_data model_handlers [] [0, 1, 255] (by decide)).1,
    (batch_offense_invalid_instruction_data model_handlers [] [2, 1, 21] (by decide)).1⟩

/-- Claim C6: batch sub-instructions execute in listed order.  The head
record consumes exactly the next `account_count` accounts off the front of
the remaining account list and runs its handler on that slice; on success
the loop continues on the dropped account list and the remaining payload,
while the first failing sub-instruction aborts the whole invocation with
its own error, and an erroring invocation leaves no mutation observable —
the host's rollback (`observable_accounts`) restores the input account
state.  (`process_batch` is `process_batch_go` at fuel `payload.length + 1`,
one fuel unit per record.) -/
theorem batch_order_first_failure_atomicity (H : Handlers)
    (accounts : List AccountInfo) (rd : Option Bytes) (fuel : Nat)
    (ac dl : Byte) (rest : Bytes) (d : Byte) (sub_data : Bytes)
    (hdl : dl.val ≤ rest.length) (hac : ac.val ≤ accounts.length)
    (htake : rest.take dl.val = d :: sub_data) (hd : d.val ≠ 255) :
    (∀ (payload : Bytes), process_batch H accounts payload =
      process_batch_go H (payload.length + 1) accounts none payload) ∧
    ((dispatch_handler H d (accounts.take ac.val) sub_data).err = none →
      process_batch_go H (fuel + 1) accounts rd (ac :: dl :: rest) =
        ⟨(dispatch_handler H d (accounts.take ac.val) sub_data).accounts ++
            (process_batch_go H fuel (accounts.drop ac.val)
              (merge_return_data
                (dispatch_handler H d (accounts.take ac.val) sub_data).return_data rd)
              (rest.drop dl.val)).accounts,
          (process_batch_go H fuel (accounts.drop ac.val)
            (merge_return_data
              (dispatch_handler H d (accounts.take ac.val) sub_data).return_data rd)
            (rest.drop dl.val)).return_data,
          (process_batch_go H fuel (accounts.drop ac.val)
            (merge_return_data
              (dispatch_handler H d (accounts.take ac.val) sub_data).return_data rd)
            (rest.drop dl.val)).err⟩) ∧
    (∀ e, (dispatch_handler H d (accounts.take ac.val) sub_data).err = some e →
      process_batch_go H (fuel + 1) accounts rd (ac :: dl :: rest) =
        ⟨(dispatch_handler H d (accounts.take ac.val) sub_data).accounts ++
            accounts.drop ac.val,
          merge_return_data
            (dispatch_handler H d (accounts.take ac.val) sub_data).return_data rd,
          some e⟩) ∧
    (∀ (instruction_data : Bytes),
      (process_instruction H accounts instruction_data).err ≠ none →
      observable_accounts H accounts instruction_data = accounts) := by
  have h1 : ¬ rest.length < dl.val := by omega
  have h2 : ¬ accounts.length < ac.val := by omega
  refine ⟨fun payload => rfl, ?_, ?_, ?_⟩
  · intro herr
    simp only [process_batch_go, if_neg h1, if_neg h2, htake, if_neg hd, herr]
  · intro e herr
    simp only [process_batch_go, if_neg h1, if_neg h2, htake, if_neg hd, herr]
  · intro instruction_data hne
    simp only [observable_accounts]
    cases hout : (process_instruction H accounts instruction_data).err with
    | some e => simp [hout]
    | none => exact (hne hout).elim

/-- Witness for C6: a one-record batch running `GetAccountDataSize` on an
invalid mint fails, and the host rollback leaves the account list intact. -/
theorem batch_order_first_failure_atomicity_witness :
    observable_accounts model_handlers [garbage_mint_account] [21] =
      [garbage_mint_account] :=
  (batch_order_first_failure_atomicity model_handlers [garbage_mint_account]
    none 0 0 1 [21] 21 [] (by decide) (by decide) (by decide)
    (by decide)).2.2.2 [21] (by decide)
